import Mathlib

/-!
Shallow embedding of the car-rental acquisition calculator (src/app.py).

The financial model is the calculation block guarded by `if not
edited_df.empty:`.  All currency and percentage quantities are modelled as
rationals (the Python code computes with floats, but every formula is
closed-form field arithmetic, so ℚ captures the exact mathematics).  The
`float('inf')` payback sentinel is modelled as `none : Option ℚ`, and the
empty-fleet branch (the Streamlit warning) as `none : Option EvaluationResult`.
-/

/-- One row of the editable fleet table: Vehicle Name, Purchase Price,
Monthly Rental, Annual Maint, Annual Ins/Roadside (app.py lines 54-58). -/
structure FleetRow where
  name : String
  purchasePrice : ℚ
  monthlyRental : ℚ
  annualMaint : ℚ
  annualIns : ℚ
deriving Repr, DecidableEq

/-- The fleet is the ordered sequence of rows of the data editor. -/
abbrev Fleet := List FleetRow

/-- The sidebar inputs (app.py lines 30-47).  When `Use Financing?` is
unchecked the three loan fields stay at their initial value 0. -/
structure ScenarioParameters where
  totalGoodwill : ℚ
  utilizationRate : ℚ
  summerGapTotal : ℚ
  monthlyLabor : ℚ
  fixedOpexAnnual : ℚ
  obTaxRate : ℚ
  useLoan : Bool
  loanPct : ℚ
  loanInterest : ℚ
  loanTerm : ℤ
deriving Repr, DecidableEq

/-- All quantities derived in the calculation block (app.py lines 72-125).
`paybackMonths = none` models the `float('inf')` sentinel. -/
structure EvaluationResult where
  numCars : ℕ
  totalAssets : ℚ
  totalPrice : ℚ
  loanAmount : ℚ
  upfrontCash : ℚ
  monthlyLoan : ℚ
  baseAnnualRev : ℚ
  grossRev : ℚ
  afterTaxRev : ℚ
  annualCarCosts : ℚ
  totalAnnualOpex : ℚ
  annualNetProfit : ℚ
  monthlyNetProfit : ℚ
  monthlyCashFlow : ℚ
  paybackMonths : Option ℚ
  roiPct : ℚ
  cashPositionSeries : List (ℕ × ℚ)
deriving Repr, DecidableEq

/-- The calculation block of app.py (lines 73-125), translated line by line,
for a fleet already known to be non-empty. -/
def evalCore (fleet : Fleet) (p : ScenarioParameters) : EvaluationResult :=
  let numCars := fleet.length
  let totalAssets := (fleet.map FleetRow.purchasePrice).sum
  let totalPrice := totalAssets + p.totalGoodwill
  let loanAmount := if p.useLoan then totalPrice * (p.loanPct / 100) else 0
  let upfrontCash := totalPrice - loanAmount
  let monthlyLoan :=
    if p.useLoan = true ∧ 0 < p.loanTerm then
      let mRate := (p.loanInterest / 100) / 12
      let nPay : ℕ := (p.loanTerm * 12).toNat
      if 0 < mRate then
        loanAmount * (mRate * (1 + mRate) ^ nPay) / ((1 + mRate) ^ nPay - 1)
      else loanAmount / (nPay : ℚ)
    else 0
  let baseAnnualRev := ((fleet.map FleetRow.monthlyRental).sum * 12) * (p.utilizationRate / 100)
  let grossRev := baseAnnualRev + p.summerGapTotal
  let afterTaxRev := grossRev * (1 - p.obTaxRate / 100)
  let annualCarCosts := (fleet.map FleetRow.annualMaint).sum + (fleet.map FleetRow.annualIns).sum
  let totalAnnualOpex := annualCarCosts + p.monthlyLabor * 12 + p.fixedOpexAnnual
  let annualNetProfit := afterTaxRev - totalAnnualOpex
  let monthlyNetProfit := annualNetProfit / 12
  let monthlyCashFlow := monthlyNetProfit - monthlyLoan
  let paybackMonths :=
    if 0 < monthlyCashFlow then some (upfrontCash / monthlyCashFlow) else none
  let roiPct := if 0 < totalPrice then (annualNetProfit / totalPrice) * 100 else 0
  let cashPositionSeries : List (ℕ × ℚ) :=
    (List.range 61).map (fun m => (m, -upfrontCash + monthlyCashFlow * (m : ℚ)))
  { numCars, totalAssets, totalPrice, loanAmount, upfrontCash, monthlyLoan,
    baseAnnualRev, grossRev, afterTaxRev, annualCarCosts, totalAnnualOpex,
    annualNetProfit, monthlyNetProfit, monthlyCashFlow, paybackMonths, roiPct,
    cashPositionSeries }

/-- The `evaluate` contract: empty fleet short-circuits to the no-data state
(app.py line 72 and the warning branch at line 142). -/
def evaluate (fleet : Fleet) (p : ScenarioParameters) : Option EvaluationResult :=
  if fleet.isEmpty then none else some (evalCore fleet p)

/-- The default fleet of app.py lines 61-67. -/
def defaultFleet : Fleet :=
  [ { name := "Kia Picanto 1", purchasePrice := 8000, monthlyRental := 900,
      annualMaint := 3600, annualIns := 1680 },
    { name := "Kia Picanto 2", purchasePrice := 8000, monthlyRental := 900,
      annualMaint := 3600, annualIns := 1680 },
    { name := "Hyundai i10", purchasePrice := 8000, monthlyRental := 1000,
      annualMaint := 3600, annualIns := 1680 },
    { name := "Lancer 1", purchasePrice := 8000, monthlyRental := 1000,
      annualMaint := 3600, annualIns := 1680 },
    { name := "Kia rio 1", purchasePrice := 8000, monthlyRental := 900,
      annualMaint := 3600, annualIns := 1680 } ]

/-- The default sidebar values of app.py lines 30-43 (financing unchecked). -/
def defaultParams : ScenarioParameters :=
  { totalGoodwill := 15000, utilizationRate := 85, summerGapTotal := 8000,
    monthlyLabor := 500, fixedOpexAnnual := 1500, obTaxRate := 6,
    useLoan := false, loanPct := 0, loanInterest := 0, loanTerm := 0 }

/-- The code's default financing values (app.py lines 45-47) with the
`Use Financing?` box checked. -/
def loanParams : ScenarioParameters :=
  { defaultParams with useLoan := true, loanPct := 50, loanInterest := 7, loanTerm := 3 }

/-- Financing enabled but with a zero loan term entered. -/
def zeroTermParams : ScenarioParameters :=
  { defaultParams with useLoan := true, loanPct := 50, loanInterest := 7, loanTerm := 0 }

def defaultResult : EvaluationResult := evalCore defaultFleet defaultParams

def loanResult : EvaluationResult := evalCore defaultFleet loanParams

def zeroTermResult : EvaluationResult := evalCore defaultFleet zeroTermParams

/-- A successful evaluation is exactly the core calculation block. -/
theorem evaluate_eq_some (fleet : Fleet) (p : ScenarioParameters) (r : EvaluationResult)
    (h : evaluate fleet p = some r) : r = evalCore fleet p := by
  cases fleet <;> simp_all [evaluate]

/-- Unfolding lemma for the payback field (app.py line 103). -/
theorem evalCore_paybackMonths (f : Fleet) (p : ScenarioParameters) :
    (evalCore f p).paybackMonths =
      if 0 < (evalCore f p).monthlyCashFlow
      then some ((evalCore f p).upfrontCash / (evalCore f p).monthlyCashFlow)
      else none := rfl

/-- Unfolding lemma for the ROI field (app.py line 104). -/
theorem evalCore_roiPct (f : Fleet) (p : ScenarioParameters) :
    (evalCore f p).roiPct =
      if 0 < (evalCore f p).totalPrice
      then (evalCore f p).annualNetProfit / (evalCore f p).totalPrice * 100
      else 0 := rfl

/-- Unfolding lemma for the cash-position series (app.py lines 124-125). -/
theorem evalCore_series (f : Fleet) (p : ScenarioParameters) :
    (evalCore f p).cashPositionSeries =
      (List.range 61).map
        (fun m : ℕ =>
          ((m, -(evalCore f p).upfrontCash + (evalCore f p).monthlyCashFlow * (m : ℚ)) : ℕ × ℚ)) :=
  rfl

/-- C1: for every non-empty fleet and every parameter set, evaluate computes
the profitability pipeline exactly as specified: baseAnnualRevenue is the sum
of monthly rental rates times 12 times utilization/100, grossAnnualRevenue
adds the summer-gap bonus, afterTaxAnnualRevenue applies the factor
1 − obTaxRatePct/100, totalAnnualOpex is fleet maintenance plus insurance plus
12 × monthlyLabor plus fixedOpexAnnual, annualNetProfit is revenue minus opex,
monthlyNetProfit is its twelfth, and monthlyCashFlow subtracts the monthly
loan payment. -/
theorem evaluate_profitability_pipeline (fleet : Fleet) (p : ScenarioParameters)
    (r : EvaluationResult) (h : evaluate fleet p = some r) :
    r.baseAnnualRev = ((fleet.map FleetRow.monthlyRental).sum * 12) * (p.utilizationRate / 100) ∧
    r.grossRev = r.baseAnnualRev + p.summerGapTotal ∧
    r.afterTaxRev = r.grossRev * (1 - p.obTaxRate / 100) ∧
    r.totalAnnualOpex = ((fleet.map FleetRow.annualMaint).sum + (fleet.map FleetRow.annualIns).sum)
      + p.monthlyLabor * 12 + p.fixedOpexAnnual ∧
    r.annualNetProfit = r.afterTaxRev - r.totalAnnualOpex ∧
    r.monthlyNetProfit = r.annualNetProfit / 12 ∧
    r.monthlyCashFlow = r.monthlyNetProfit - r.monthlyLoan := by
  have hr := evaluate_eq_some fleet p r h
  subst hr
  simp [evalCore]

theorem evaluate_profitability_pipeline_witness :
    evaluate defaultFleet defaultParams = some defaultResult ∧
    (defaultResult.baseAnnualRev =
        ((defaultFleet.map FleetRow.monthlyRental).sum * 12) * (defaultParams.utilizationRate / 100) ∧
      defaultResult.grossRev = defaultResult.baseAnnualRev + defaultParams.summerGapTotal ∧
      defaultResult.afterTaxRev = defaultResult.grossRev * (1 - defaultParams.obTaxRate / 100) ∧
      defaultResult.totalAnnualOpex =
        ((defaultFleet.map FleetRow.annualMaint).sum + (defaultFleet.map FleetRow.annualIns).sum)
          + defaultParams.monthlyLabor * 12 + defaultParams.fixedOpexAnnual ∧
      defaultResult.annualNetProfit = defaultResult.afterTaxRev - defaultResult.totalAnnualOpex ∧
      defaultResult.monthlyNetProfit = defaultResult.annualNetProfit / 12 ∧
      defaultResult.monthlyCashFlow = defaultResult.monthlyNetProfit - defaultResult.monthlyLoan) :=
  ⟨rfl, evaluate_profitability_pipeline defaultFleet defaultParams defaultResult rfl⟩

/-- C2: with financing off, loanAmount = 0, upfrontCash = totalPrice and
monthlyLoanPayment = 0 exactly; with financing on and a positive term,
loanAmount = totalPrice × loanPct/100, upfrontCash = totalPrice − loanAmount,
and with monthly rate r = annualInterest/100/12 and n = termYears × 12 the
monthly payment is the annuity value when r > 0 and loanAmount/n when r = 0. -/
theorem evaluate_financing_branches (fleet : Fleet) (p : ScenarioParameters)
    (r : EvaluationResult) (h : evaluate fleet p = some r) :
    (p.useLoan = false →
      r.loanAmount = 0 ∧ r.upfrontCash = r.totalPrice ∧ r.monthlyLoan = 0) ∧
    (p.useLoan = true → 0 < p.loanTerm →
      r.loanAmount = r.totalPrice * (p.loanPct / 100) ∧
      r.upfrontCash = r.totalPrice - r.loanAmount ∧
      (0 < p.loanInterest / 100 / 12 →
        r.monthlyLoan = r.loanAmount *
          (p.loanInterest / 100 / 12 * (1 + p.loanInterest / 100 / 12) ^ (p.loanTerm * 12).toNat) /
          ((1 + p.loanInterest / 100 / 12) ^ (p.loanTerm * 12).toNat - 1)) ∧
      (p.loanInterest / 100 / 12 = 0 →
        r.monthlyLoan = r.loanAmount / ((p.loanTerm * 12).toNat : ℚ))) := by
  have hr := evaluate_eq_some fleet p r h
  subst hr
  constructor
  · intro hu
    refine ⟨?_, ?_, ?_⟩ <;> simp [evalCore, hu]
  · intro hu ht
    refine ⟨?_, ?_, ?_, ?_⟩
    · simp [evalCore, hu]
    · simp [evalCore]
    · intro hr0; simp [evalCore, hu, ht, hr0]
    · intro hr0; simp [evalCore, hu, ht, hr0]

theorem evaluate_financing_branches_witness :
    evaluate defaultFleet loanParams = some loanResult ∧
    ((loanParams.useLoan = false →
        loanResult.loanAmount = 0 ∧ loanResult.upfrontCash = loanResult.totalPrice ∧
          loanResult.monthlyLoan = 0) ∧
      (loanParams.useLoan = true → 0 < loanParams.loanTerm →
        loanResult.loanAmount = loanResult.totalPrice * (loanParams.loanPct / 100) ∧
        loanResult.upfrontCash = loanResult.totalPrice - loanResult.loanAmount ∧
        (0 < loanParams.loanInterest / 100 / 12 →
          loanResult.monthlyLoan = loanResult.loanAmount *
            (loanParams.loanInterest / 100 / 12 *
              (1 + loanParams.loanInterest / 100 / 12) ^ (loanParams.loanTerm * 12).toNat) /
            ((1 + loanParams.loanInterest / 100 / 12) ^ (loanParams.loanTerm * 12).toNat - 1)) ∧
        (loanParams.loanInterest / 100 / 12 = 0 →
          loanResult.monthlyLoan =
            loanResult.loanAmount / ((loanParams.loanTerm * 12).toNat : ℚ)))) :=
  ⟨rfl, evaluate_financing_branches defaultFleet loanParams loanResult rfl⟩

/-- C3: payback equals upfrontCash / monthlyCashFlow when the cash flow is
positive, and is the infinite sentinel exactly when the cash flow is ≤ 0. -/
theorem evaluate_payback_guarded (fleet : Fleet) (p : ScenarioParameters)
    (r : EvaluationResult) (h : evaluate fleet p = some r) :
    (0 < r.monthlyCashFlow → r.paybackMonths = some (r.upfrontCash / r.monthlyCashFlow)) ∧
    (r.paybackMonths = none ↔ r.monthlyCashFlow ≤ 0) := by
  have hr := evaluate_eq_some fleet p r h
  subst hr
  rw [evalCore_paybackMonths]
  constructor
  · intro hc; rw [if_pos hc]
  · split_ifs with hc
    · simp [not_le.mpr hc]
    · simp [not_lt.mp hc]

theorem evaluate_payback_guarded_witness :
    evaluate defaultFleet defaultParams = some defaultResult ∧
    ((0 < defaultResult.monthlyCashFlow →
        defaultResult.paybackMonths =
          some (defaultResult.upfrontCash / defaultResult.monthlyCashFlow)) ∧
      (defaultResult.paybackMonths = none ↔ defaultResult.monthlyCashFlow ≤ 0)) :=
  ⟨rfl, evaluate_payback_guarded defaultFleet defaultParams defaultResult rfl⟩

/-- C4: the cash-position series has exactly 61 points indexed m = 0..60,
each equal to −upfrontCash + monthlyCashFlow × m; in particular the point at
m = 0 is −upfrontCash and the series is linear with slope monthlyCashFlow. -/
theorem evaluate_cash_series (fleet : Fleet) (p : ScenarioParameters)
    (r : EvaluationResult) (h : evaluate fleet p = some r) :
    r.cashPositionSeries.length = 61 ∧
    (∀ m : ℕ, m < 61 →
      r.cashPositionSeries[m]? = some (m, -r.upfrontCash + r.monthlyCashFlow * (m : ℚ))) ∧
    r.cashPositionSeries[0]? = some (0, -r.upfrontCash) := by
  have hr := evaluate_eq_some fleet p r h
  subst hr
  rw [evalCore_series]
  refine ⟨by simp, fun m hm => ?_, ?_⟩
  · simp [List.getElem?_map, List.getElem?_range, hm]
  · simp [List.getElem?_map, List.getElem?_range]

theorem evaluate_cash_series_witness :
    evaluate defaultFleet defaultParams = some defaultResult ∧
    (defaultResult.cashPositionSeries.length = 61 ∧
      (∀ m : ℕ, m < 61 →
        defaultResult.cashPositionSeries[m]? =
          some (m, -defaultResult.upfrontCash + defaultResult.monthlyCashFlow * (m : ℚ))) ∧
      defaultResult.cashPositionSeries[0]? = some (0, -defaultResult.upfrontCash)) :=
  ⟨rfl, evaluate_cash_series defaultFleet defaultParams defaultResult rfl⟩

/-- C5: evaluating an empty fleet returns the no-data state and nothing else;
every non-empty fleet produces a full EvaluationResult. -/
theorem evaluate_empty_iff (fleet : Fleet) (p : ScenarioParameters) :
    (evaluate fleet p = none ↔ fleet = []) ∧
    ((evaluate fleet p).isSome = true ↔ fleet ≠ []) := by
  cases fleet <;> simp [evaluate]

/-- C6: roiPct = annualNetProfit/totalPrice × 100 when totalPrice > 0, and 0
when totalPrice = 0 (the division is guarded). -/
theorem evaluate_roi_guarded (fleet : Fleet) (p : ScenarioParameters)
    (r : EvaluationResult) (h : evaluate fleet p = some r) :
    (0 < r.totalPrice → r.roiPct = r.annualNetProfit / r.totalPrice * 100) ∧
    (r.totalPrice = 0 → r.roiPct = 0) := by
  have hr := evaluate_eq_some fleet p r h
  subst hr
  constructor
  · intro hc; rw [evalCore_roiPct, if_pos hc]
  · intro hc; rw [evalCore_roiPct, if_neg (by rw [hc]; exact lt_irrefl 0)]

theorem evaluate_roi_guarded_witness :
    evaluate defaultFleet defaultParams = some defaultResult ∧
    ((0 < defaultResult.totalPrice →
        defaultResult.roiPct = defaultResult.annualNetProfit / defaultResult.totalPrice * 100) ∧
      (defaultResult.totalPrice = 0 → defaultResult.roiPct = 0)) :=
  ⟨rfl, evaluate_roi_guarded defaultFleet defaultParams defaultResult rfl⟩

/-- C7: the spec's worked example on the default fleet and default sidebar
values: totalPrice 55000, baseAnnualRevenue 47940, gross 55940, after-tax
52583.60, opex 33900, annualNetProfit 18683.60, upfrontCash 55000,
monthlyCashFlow ≈ 1556.97 and paybackMonths ≈ 35.3. -/
theorem evaluate_default_example :
    ∃ r, evaluate defaultFleet defaultParams = some r ∧
      r.totalPrice = 55000 ∧ r.baseAnnualRev = 47940 ∧ r.grossRev = 55940 ∧
      r.afterTaxRev = 52583.6 ∧ r.totalAnnualOpex = 33900 ∧
      r.annualNetProfit = 18683.6 ∧ r.upfrontCash = 55000 ∧
      1556.96 < r.monthlyCashFlow ∧ r.monthlyCashFlow < 1556.98 ∧
      ∃ q, r.paybackMonths = some q ∧ 35.25 < q ∧ q < 35.35 := by
  refine ⟨evalCore defaultFleet defaultParams, rfl, ?_⟩
  refine ⟨?_, ?_, ?_, ?_, ?_, ?_, ?_, ?_, ?_, ⟨1650000/46709, ?_, by norm_num, by norm_num⟩⟩ <;>
    norm_num [evalCore, defaultFleet, defaultParams]

/-- C8: evaluate is a deterministic pure function of (Fleet,
ScenarioParameters): equal inputs give identical results. -/
theorem evaluate_deterministic (f₁ f₂ : Fleet) (p₁ p₂ : ScenarioParameters)
    (hf : f₁ = f₂) (hp : p₁ = p₂) : evaluate f₁ p₁ = evaluate f₂ p₂ := by
  rw [hf, hp]

theorem evaluate_deterministic_witness :
    defaultFleet = defaultFleet ∧ defaultParams = defaultParams ∧
    evaluate defaultFleet defaultParams = evaluate defaultFleet defaultParams :=
  ⟨rfl, rfl, evaluate_deterministic defaultFleet defaultFleet defaultParams defaultParams rfl rfl⟩

/-- C9: when the payback month is finite, the cash-position line vanishes
there exactly: −upfrontCash + monthlyCashFlow × paybackMonths = 0. -/
theorem evaluate_payback_breakeven (fleet : Fleet) (p : ScenarioParameters)
    (r : EvaluationResult) (q : ℚ)
    (h : evaluate fleet p = some r) (hq : r.paybackMonths = some q) :
    -r.upfrontCash + r.monthlyCashFlow * q = 0 := by
  have hr := evaluate_eq_some fleet p r h
  subst hr
  rw [evalCore_paybackMonths] at hq
  split_ifs at hq with hc
  obtain rfl : (evalCore fleet p).upfrontCash / (evalCore fleet p).monthlyCashFlow = q :=
    Option.some.inj hq
  field_simp

theorem evaluate_payback_breakeven_witness :
    evaluate defaultFleet defaultParams = some defaultResult ∧
    defaultResult.paybackMonths = some (1650000/46709 : ℚ) ∧
    -defaultResult.upfrontCash + defaultResult.monthlyCashFlow * (1650000/46709 : ℚ) = 0 :=
  ⟨rfl, by norm_num [defaultResult, evalCore, defaultFleet, defaultParams],
    evaluate_payback_breakeven defaultFleet defaultParams defaultResult (1650000/46709) rfl
      (by norm_num [defaultResult, evalCore, defaultFleet, defaultParams])⟩

/-- C10: with financing enabled but a non-positive loan term, evaluation still
completes with monthlyLoanPayment = 0 while loanAmount and upfrontCash keep
their financing values, so the loan reduces upfront cash without a payment. -/
theorem evaluate_zero_term_financing (fleet : Fleet) (p : ScenarioParameters)
    (r : EvaluationResult) (h : evaluate fleet p = some r)
    (hu : p.useLoan = true) (ht : p.loanTerm ≤ 0) :
    r.monthlyLoan = 0 ∧ r.loanAmount = r.totalPrice * (p.loanPct / 100) ∧
    r.upfrontCash = r.totalPrice - r.loanAmount := by
  have hr := evaluate_eq_some fleet p r h
  subst hr
  have hnt := not_lt.mpr ht
  refine ⟨?_, ?_, ?_⟩ <;> simp [evalCore, hu, hnt]

theorem evaluate_zero_term_financing_witness :
    evaluate defaultFleet zeroTermParams = some zeroTermResult ∧
    zeroTermParams.useLoan = true ∧ zeroTermParams.loanTerm ≤ 0 ∧
    (zeroTermResult.monthlyLoan = 0 ∧
      zeroTermResult.loanAmount = zeroTermResult.totalPrice * (zeroTermParams.loanPct / 100) ∧
      zeroTermResult.upfrontCash = zeroTermResult.totalPrice - zeroTermResult.loanAmount) :=
  ⟨rfl, rfl, le_refl 0,
    evaluate_zero_term_financing defaultFleet zeroTermParams zeroTermResult rfl rfl (le_refl 0)⟩
